import Mathlib

/-!
Shallow embedding of `src/interface.rs` of the nh_darwin repository: the typed
command model, argument fragments, default-value resolution and polymorphic
dispatch of the CLI.  The clap derive attributes in the source are declarative;
each argument struct is embedded here together with a `parse…` function that
implements, for exactly the attributes declared on its fields, clap's
documented resolution semantics: an explicitly supplied command-line value wins
over an `env`-sourced value, which wins over a `default_value`/`default_value_t`;
a field whose type is not `Option` and which has no default is required;
`conflicts_with` rejects an invocation in which both arguments are present
(present = supplied on the command line or through their `env` variable, never
through a default).
-/

namespace NhDarwin

/-- Model of Rust `std::path::Path` / `PathBuf`: the underlying bytes. -/
structure RustPath where
  bytes : String
deriving Repr, DecidableEq

/-- `FlakeRef(String)` from src/interface.rs lines 16-17: a newtype around the
reference text. -/
structure FlakeRef where
  val : String
deriving Repr, DecidableEq

/-- `impl From<&str> for FlakeRef` (lines 18-22): wraps the text. -/
def FlakeRef.fromStr (s : String) : FlakeRef := ⟨s⟩

/-- `impl AsRef<str> for FlakeRef` (lines 24-28): views the wrapped text. -/
def FlakeRef.asRefStr (r : FlakeRef) : String := r.val

/-- `impl AsRef<Path> for FlakeRef` (lines 29-33): the same bytes as a path. -/
def FlakeRef.asRefPath (r : FlakeRef) : RustPath := ⟨r.val⟩

/-- `impl Display for FlakeRef` (lines 35-39): writes the wrapped text. -/
def FlakeRef.display (r : FlakeRef) : String := r.val

/-- `#[derive(Default)]` on `FlakeRef` (line 16): the empty text. -/
def FlakeRef.defaultValue : FlakeRef := ⟨""⟩

/-- Modelled from the spec: `crate::config::Config` is not under `src/`.
Per spec §2/§3/§4.1 it holds the default system-configuration and
user-configuration flake locations, both fixed sub-paths under the home
directory.  The exact sub-path strings are not given by the spec; the two
constants below stand for them. -/
structure Config where
  os_flake : String
  home_flake : String
deriving Repr, DecidableEq

/-- Modelled from the spec: the fixed home-relative sub-path of the default
system-configuration flake location. -/
def osFlakeSubpath : String := "/nix-darwin"

/-- Modelled from the spec: the fixed home-relative sub-path of the default
user-configuration flake location. -/
def homeFlakeSubpath : String := "/home-manager"

/-- Modelled from the spec: `Config::from_env` (not under `src/`) derives both
default locations deterministically from the home directory and fails exactly
when the home directory cannot be determined (spec §4.1). -/
def Config.from_env (home : Option String) : Option Config :=
  home.map fun h => { os_flake := h ++ osFlakeSubpath, home_flake := h ++ homeFlakeSubpath }

/-- State of the `LazyLock` cell backing `FLAKE_CONFIG` (lines 13-14): either
not yet initialized or holding the memoized `Config`. -/
structure LazyState where
  cached : Option Config
deriving Repr, DecidableEq

/-- One access to `FLAKE_CONFIG` (lines 13-14): a cached value is returned
unchanged; otherwise `Config::from_env` runs once and its result is cached, the
`expect` turning a failure into the fatal message. -/
def lazyAccess (home : Option String) (s : LazyState) : Except String (Config × LazyState) :=
  match s.cached with
  | some c => .ok (c, s)
  | none =>
    match Config.from_env home with
    | some c => .ok (c, { cached := some c })
    | none => .error "unable to get home directory"

/-- The environment variables consumed by the argument structs: `FLAKE`
(repl/search flake reference), `NH_DIFF_PROVIDER`, `NH_BYPASS_ROOT_CHECK`
(its value already parsed as a boolean). -/
structure Env where
  flake : Option String
  nh_diff_provider : Option String
  nh_bypass_root_check : Option Bool
deriving Repr, DecidableEq

/-- `CommonReplArgs` (lines 102-119). -/
structure CommonReplArgs where
  flakeref : FlakeRef
  hostname : Option String
  configuration : Option String
  extra_args : List String
deriving Repr, DecidableEq

/-- The values a command line may supply for the fields of `CommonReplArgs`:
`none` means the argument was not given. -/
structure ReplInput where
  flakeref : Option String
  hostname : Option String
  configuration : Option String
  extra_args : List String
deriving Repr, DecidableEq

/-- clap resolution for `CommonReplArgs`: `flakeref` is positional with
`env = "FLAKE"` and no default, hence required once the environment also lacks
`FLAKE`; `configuration` declares `conflicts_with = "flakeref"` (line 113), and
a conflict fires when both are present from command line or environment. -/
def parseRepl (env : Env) (inp : ReplInput) : Except String CommonReplArgs :=
  let fr := inp.flakeref.orElse fun _ => env.flake
  if inp.configuration.isSome && fr.isSome then
    .error "the argument --configuration cannot be used with flakeref"
  else
    match fr with
    | some f =>
      .ok { flakeref := ⟨f⟩, hostname := inp.hostname,
            configuration := inp.configuration, extra_args := inp.extra_args }
    | none => .error "the following required arguments were not provided: flakeref"

/-- `CommonRebuildArgs` (lines 185-221). -/
structure CommonRebuildArgs where
  dry : Bool
  ask : Bool
  update : Bool
  pull : Bool
  no_nom : Bool
  diff_provider : String
  out_link : Option String
deriving Repr, DecidableEq

/-- Command-line input for the `CommonRebuildArgs` fragment. -/
structure CommonRebuildInput where
  dry : Bool
  ask : Bool
  update : Bool
  pull : Bool
  no_nom : Bool
  diff_provider : Option String
  out_link : Option String
deriving Repr, DecidableEq

/-- clap resolution for `CommonRebuildArgs`: only `diff_provider` declares an
`env` (`NH_DIFF_PROVIDER`) and a default (`"nvd diff"`, lines 210-216); the
flags default to `false` and `out_link` stays optional. -/
def parseCommonRebuild (env : Env) (inp : CommonRebuildInput) : CommonRebuildArgs :=
  { dry := inp.dry, ask := inp.ask, update := inp.update, pull := inp.pull,
    no_nom := inp.no_nom,
    diff_provider := ((inp.diff_provider.orElse fun _ => env.nh_diff_provider).getD "nvd diff"),
    out_link := inp.out_link }

/-- `OsSubcommandArgs` (lines 155-183). -/
structure OsSubcommandArgs where
  common : CommonRebuildArgs
  flakeref : FlakeRef
  hostname : Option String
  specialisation : Option String
  no_specialisation : Bool
  extra_args : List String
  bypass_root_check : Bool
deriving Repr, DecidableEq

/-- Command-line input for `OsSubcommandArgs`. -/
structure OsInput where
  common : CommonRebuildInput
  flakeref : Option String
  hostname : Option String
  specialisation : Option String
  no_specialisation : Bool
  extra_args : List String
  bypass_root_check : Bool
deriving Repr, DecidableEq

/-- clap resolution for `OsSubcommandArgs`: `flakeref` is positional with
`default_value_t = FlakeRef(FLAKE_CONFIG.os_flake…)` and no `env` (lines
160-162); `bypass_root_check` reads `NH_BYPASS_ROOT_CHECK` when the flag is
absent (lines 180-182); `specialisation` and `no_specialisation` declare no
conflict with each other (lines 168-174), and every field is optional or
defaulted, so resolution never fails. -/
def parseOsSubcommand (cfg : Config) (env : Env) (inp : OsInput) :
    Except String OsSubcommandArgs :=
  .ok { common := parseCommonRebuild env inp.common,
        flakeref := ⟨inp.flakeref.getD cfg.os_flake⟩,
        hostname := inp.hostname,
        specialisation := inp.specialisation,
        no_specialisation := inp.no_specialisation,
        extra_args := inp.extra_args,
        bypass_root_check := inp.bypass_root_check || env.nh_bypass_root_check.getD false }

/-- `HomeRebuildArgs` (lines 326-347). -/
structure HomeRebuildArgs where
  common : CommonRebuildArgs
  flakeref : FlakeRef
  configuration : Option String
  extra_args : List String
  backup_extension : Option String
deriving Repr, DecidableEq

/-- Command-line input for `HomeRebuildArgs`. -/
structure HomeInput where
  common : CommonRebuildInput
  flakeref : Option String
  configuration : Option String
  extra_args : List String
  backup_extension : Option String
deriving Repr, DecidableEq

/-- clap resolution for `HomeRebuildArgs`: `flakeref` is positional with
`default_value_t = FlakeRef(FLAKE_CONFIG.home_flake…)` and no `env` (lines
332-334); `configuration` (lines 336-338) declares no `conflicts_with`; every
field is optional or defaulted, so resolution never fails. -/
def parseHomeRebuild (cfg : Config) (env : Env) (inp : HomeInput) :
    Except String HomeRebuildArgs :=
  .ok { common := parseCommonRebuild env inp.common,
        flakeref := ⟨inp.flakeref.getD cfg.home_flake⟩,
        configuration := inp.configuration,
        extra_args := inp.extra_args,
        backup_extension := inp.backup_extension }

/-- The value of a digit run. -/
def digitsToNat (ds : List Char) : Nat :=
  ds.foldl (fun a c => a * 10 + (c.toNat - 48)) 0

/-- Rust `from_str` for an unsigned integer, as clap's `u32`/`u64` value
parsers use it: an optional leading `+` followed by at least one decimal
digit. -/
def parseNatStr (s : String) : Option Nat :=
  let cs := match s.data with
    | '+' :: rest => rest
    | cs => cs
  if cs ≠ [] ∧ cs.all Char.isDigit then some (digitsToNat cs) else none

/-- `SearchArgs` (lines 223-240): `limit: u64`. -/
structure SearchArgs where
  limit : Nat
  channel : Option String
  query : String
  flake : Option FlakeRef
deriving Repr, DecidableEq

/-- Command-line input for `SearchArgs`; numeric arguments arrive as text. -/
structure SearchInput where
  limit : Option String
  channel : Option String
  query : Option String
  flake : Option String
deriving Repr, DecidableEq

/-- clap resolution for `SearchArgs`: `limit` has `default_value = "30"` and is
parsed as `u64` (lines 226-228); `query` is a required positional (line 235);
`flake` is optional with `env = "FLAKE"` (lines 237-239). -/
def parseSearch (env : Env) (inp : SearchInput) : Except String SearchArgs :=
  match parseNatStr (inp.limit.getD "30") with
  | none => .error "invalid value for --limit"
  | some l =>
    if l < 2 ^ 64 then
      match inp.query with
      | none => .error "the following required arguments were not provided: query"
      | some q =>
        .ok { limit := l, channel := inp.channel, query := q,
              flake := (inp.flake.orElse fun _ => env.flake).map FlakeRef.mk }
    else .error "invalid value for --limit"

/-- The nanosecond weight of one humantime duration unit
(`humantime::parse_duration`, referenced at line 265): `months` is 30.44 days
and `years` is 365.25 days, as in that crate. -/
def humantimeUnitNanos : String → Option Nat
  | "nanos" => some 1
  | "nsec" => some 1
  | "ns" => some 1
  | "usec" => some 1000
  | "us" => some 1000
  | "millis" => some 1000000
  | "msec" => some 1000000
  | "ms" => some 1000000
  | "seconds" => some 1000000000
  | "second" => some 1000000000
  | "secs" => some 1000000000
  | "sec" => some 1000000000
  | "s" => some 1000000000
  | "minutes" => some (60 * 1000000000)
  | "minute" => some (60 * 1000000000)
  | "mins" => some (60 * 1000000000)
  | "min" => some (60 * 1000000000)
  | "m" => some (60 * 1000000000)
  | "hours" => some (3600 * 1000000000)
  | "hour" => some (3600 * 1000000000)
  | "hr" => some (3600 * 1000000000)
  | "h" => some (3600 * 1000000000)
  | "days" => some (86400 * 1000000000)
  | "day" => some (86400 * 1000000000)
  | "d" => some (86400 * 1000000000)
  | "weeks" => some (604800 * 1000000000)
  | "week" => some (604800 * 1000000000)
  | "w" => some (604800 * 1000000000)
  | "months" => some (2630016 * 1000000000)
  | "month" => some (2630016 * 1000000000)
  | "M" => some (2630016 * 1000000000)
  | "years" => some (31557600 * 1000000000)
  | "year" => some (31557600 * 1000000000)
  | "y" => some (31557600 * 1000000000)
  | _ => none

/-- One pass of the humantime grammar: repeated `<digits><unit>` groups,
optionally separated by spaces.  The fuel starts at the input length; each
recursive step consumes at least one character, so the fuel never runs out on
a real input. -/
def parseDurationAux (fuel : Nat) (cs : List Char) (acc : Nat) : Option Nat :=
  match fuel with
  | 0 => match cs with | [] => some acc | _ => none
  | fuel + 1 =>
    match cs with
    | [] => some acc
    | _ =>
      let cs1 := cs.dropWhile (· = ' ')
      let ds := cs1.takeWhile Char.isDigit
      let rest := cs1.dropWhile Char.isDigit
      if ds.isEmpty then none
      else
        let us := rest.takeWhile Char.isAlpha
        let rest2 := rest.dropWhile Char.isAlpha
        match humantimeUnitNanos (String.mk us) with
        | none => none
        | some mult => parseDurationAux fuel rest2 (acc + digitsToNat ds * mult)

/-- `humantime::parse_duration` (used for `keep_since`, line 273): total
nanoseconds, or `none` on malformed input. -/
def humantimeParseDuration (s : String) : Option Nat :=
  if s.isEmpty then none
  else parseDurationAux s.length s.data 0

/-- `CleanArgs` (lines 261-290): `keep: u32`, `keep_since` a humantime
duration held here in nanoseconds. -/
structure CleanArgs where
  keep : Nat
  keep_since : Nat
  dry : Bool
  ask : Bool
  nogc : Bool
  nogcroots : Bool
deriving Repr, DecidableEq

/-- Command-line input for `CleanArgs`; the two valued arguments arrive as
text just as on the command line. -/
structure CleanInput where
  keep : Option String
  keep_since : Option String
  dry : Bool
  ask : Bool
  nogc : Bool
  nogcroots : Bool
deriving Repr, DecidableEq

/-- A `clean` invocation that supplies no options. -/
def emptyCleanInput : CleanInput :=
  { keep := none, keep_since := none, dry := false, ask := false,
    nogc := false, nogcroots := false }

/-- clap resolution for `CleanArgs`: `keep` has `default_value = "1"` parsed
as `u32` (lines 267-269), `keep_since` has `default_value = "0h"` parsed by
humantime (lines 271-273); the four flags default to `false`. -/
def parseClean (inp : CleanInput) : Except String CleanArgs :=
  match parseNatStr (inp.keep.getD "1") with
  | none => .error "invalid value for --keep"
  | some k =>
    if k < 2 ^ 32 then
      match humantimeParseDuration (inp.keep_since.getD "0h") with
      | none => .error "invalid value for --keep-since"
      | some d =>
        .ok { keep := k, keep_since := d, dry := inp.dry, ask := inp.ask,
              nogc := inp.nogc, nogcroots := inp.nogcroots }
    else .error "invalid value for --keep"

/-- `CleanProfileArgs` (lines 292-298): the flattened `CleanArgs` plus the
required positional profile path. -/
structure CleanProfileArgs where
  common : CleanArgs
  profile : RustPath
deriving Repr, DecidableEq

/-- clap resolution for `CleanProfileArgs`: the fragment resolves as in
`parseClean` and the positional profile path is carried through. -/
def parseCleanProfile (inp : CleanInput) (profile : String) :
    Except String CleanProfileArgs :=
  (parseClean inp).map fun c => { common := c, profile := ⟨profile⟩ }

/-- `CleanMode` (lines 250-259). -/
inductive CleanMode where
  | all (args : CleanArgs)
  | user (args : CleanArgs)
  | profile (args : CleanProfileArgs)
deriving Repr, DecidableEq

/-- `CleanProxy` (lines 243-248): a struct that only holds the nested choice. -/
structure CleanProxy where
  command : CleanMode
deriving Repr, DecidableEq

/-- `OsCommandType` (lines 131-153). -/
inductive OsCommandType where
  | switch (args : OsSubcommandArgs)
  | boot (args : OsSubcommandArgs)
  | test (args : OsSubcommandArgs)
  | build (args : OsSubcommandArgs)
  | repl (args : CommonReplArgs)
  | info
deriving Repr, DecidableEq

/-- `OsArgs` (lines 121-129). -/
structure OsArgs where
  action : OsCommandType
deriving Repr, DecidableEq

/-- `HomeSubcommand` (lines 307-324). -/
inductive HomeSubcommand where
  | switch (args : HomeRebuildArgs)
  | build (args : HomeRebuildArgs)
  | info
deriving Repr, DecidableEq

/-- `HomeArgs` (lines 300-305). -/
structure HomeArgs where
  subcommand : HomeSubcommand
deriving Repr, DecidableEq

/-- `clap_complete::Shell`: the closed set of supported shell identifiers. -/
inductive Shell where
  | bash
  | elvish
  | fish
  | powershell
  | zsh
deriving Repr, DecidableEq

/-- `CompletionArgs` (lines 349-355). -/
structure CompletionArgs where
  shell : Shell
deriving Repr, DecidableEq

/-- `NHCommand` (lines 91-100): the closed top-level command set. -/
inductive NHCommand where
  | os (args : OsArgs)
  | home (args : HomeArgs)
  | search (args : SearchArgs)
  | clean (args : CleanProxy)
  | completions (args : CompletionArgs)
deriving Repr, DecidableEq

/-- Modelled from the spec: the bodies of the `NHRunnable::run` implementations
for the individual variants are not under `src/` (only the trait and the
`Delegate` derivations are, lines 86-100 and 243-248); per spec §4.4 each leaf
variant exposes one `run` taking no further arguments and returning success or
a descriptive failure.  Each handler here stands for one such missing body. -/
structure RunImpls where
  osRun : OsArgs → Except String Unit
  homeRun : HomeArgs → Except String Unit
  searchRun : SearchArgs → Except String Unit
  cleanAllRun : CleanArgs → Except String Unit
  cleanUserRun : CleanArgs → Except String Unit
  cleanProfileRun : CleanProfileArgs → Except String Unit
  completionsRun : CompletionArgs → Except String Unit

/-- Modelled from the spec: `CleanMode`'s `NHRunnable` implementation is not
under `src/`; per spec §4.4 it routes to whichever nested leaf
(all/user/profile) was selected. -/
def CleanMode.run (impls : RunImpls) : CleanMode → Except String Unit
  | .all a => impls.cleanAllRun a
  | .user a => impls.cleanUserRun a
  | .profile a => impls.cleanProfileRun a

/-- `#[derive(Delegate)] #[delegate(NHRunnable)]` on `CleanProxy` (lines
243-248): `run` is forwarded unchanged to the held `CleanMode`. -/
def CleanProxy.run (impls : RunImpls) (p : CleanProxy) : Except String Unit :=
  CleanMode.run impls p.command

/-- `#[derive(Delegate)] #[delegate(NHRunnable)]` on `NHCommand` (lines
91-100): `run` dispatches by an exhaustive match to the payload's own `run`. -/
def NHCommand.run (impls : RunImpls) : NHCommand → Except String Unit
  | .os a => impls.osRun a
  | .home a => impls.homeRun a
  | .search a => impls.searchRun a
  | .clean p => CleanProxy.run impls p
  | .completions a => impls.completionsRun a

/-- The flakeref text of a successful `OsSubcommandArgs` resolution. -/
def osFlakerefOf (r : Except String OsSubcommandArgs) : Option String :=
  match r with
  | .ok a => some a.flakeref.val
  | .error _ => none

/-- The flakeref text of a successful `HomeRebuildArgs` resolution. -/
def homeFlakerefOf (r : Except String HomeRebuildArgs) : Option String :=
  match r with
  | .ok a => some a.flakeref.val
  | .error _ => none

/-- A concrete configuration with distinct system and user locations, for
concrete evaluations. -/
def cfg0 : Config := { os_flake := "/cfg/os-flake", home_flake := "/cfg/home-flake" }

/-- An empty process environment. -/
def env0 : Env := { flake := none, nh_diff_provider := none, nh_bypass_root_check := none }

/-- A rebuild-fragment invocation that supplies nothing. -/
def emptyCommonRebuildInput : CommonRebuildInput :=
  { dry := false, ask := false, update := false, pull := false, no_nom := false,
    diff_provider := none, out_link := none }

/-- An environment that sets `FLAKE` only. -/
def env1 : Env := { flake := some "/env/flake", nh_diff_provider := none, nh_bypass_root_check := none }

/-- An `os` rebuild invocation that supplies nothing. -/
def osInput0 : OsInput :=
  { common := emptyCommonRebuildInput, flakeref := none, hostname := none,
    specialisation := none, no_specialisation := false, extra_args := [],
    bypass_root_check := false }

/-- An `os` rebuild invocation supplying both a specialisation name and the
no-specialisation flag. -/
def osInputBoth : OsInput :=
  { common := emptyCommonRebuildInput, flakeref := none, hostname := none,
    specialisation := some "work", no_specialisation := true, extra_args := [],
    bypass_root_check := false }

/-- A `home` rebuild invocation that supplies nothing. -/
def homeInput0 : HomeInput :=
  { common := emptyCommonRebuildInput, flakeref := none, configuration := none,
    extra_args := [], backup_extension := none }

/-- A `home` rebuild invocation supplying both a flake reference and a
configuration-attribute name. -/
def homeInputBoth : HomeInput :=
  { common := emptyCommonRebuildInput, flakeref := some "/my/flake",
    configuration := some "me@host", extra_args := [], backup_extension := none }

/-- A search invocation supplying only the query. -/
def searchInput0 : SearchInput :=
  { limit := none, channel := none, query := some "firefox", flake := none }

/-- Claim C1, counterexample: `home switch`/`home build` accept a command line
supplying both a target flake reference and a configuration-attribute name —
`HomeRebuildArgs.configuration` declares no `conflicts_with` — so the claim
that every rebuild-style command rejects this combination is false. -/
theorem home_rebuild_accepts_ref_and_configuration :
    (parseHomeRebuild cfg0 env0 homeInputBoth).isOk = true := rfl

/-- Claim C1 (amended): only the `repl` command rejects supplying both a
target flake reference (positionally or via `FLAKE`) and a
configuration-attribute name; the home rebuild commands accept any
combination, and the os rebuild commands expose no configuration-attribute
option at all. -/
theorem ref_configuration_conflict_only_for_repl (env : Env) (inp : ReplInput)
    (cfg : Config) (hin : HomeInput)
    (hc : inp.configuration.isSome = true)
    (hf : (inp.flakeref.orElse fun _ => env.flake).isSome = true) :
    (∃ e, parseRepl env inp = .error e) ∧
    (parseHomeRebuild cfg env hin).isOk = true := by
  refine ⟨⟨"the argument --configuration cannot be used with flakeref", ?_⟩, rfl⟩
  unfold parseRepl
  simp [hc, hf]

/-- Claim C1 witness. -/
theorem ref_configuration_conflict_only_for_repl_witness :
    (∃ e, parseRepl env0
      { flakeref := some "/my/flake", hostname := none,
        configuration := some "me@host", extra_args := [] } = .error e) ∧
    (parseHomeRebuild cfg0 env0 homeInputBoth).isOk = true :=
  ref_configuration_conflict_only_for_repl env0
    { flakeref := some "/my/flake", hostname := none,
      configuration := some "me@host", extra_args := [] }
    cfg0 homeInputBoth rfl rfl

/-- Claim C2, counterexample: the parser accepts a system-operation command
line supplying both a specialisation name and the no-specialisation flag —
neither field of `OsSubcommandArgs` declares a conflict — so the claimed
mutual exclusion is false. -/
theorem os_accepts_specialisation_and_no_specialisation :
    parseOsSubcommand cfg0 env0 osInputBoth =
      .ok { common := { dry := false, ask := false, update := false, pull := false,
                        no_nom := false, diff_provider := "nvd diff", out_link := none },
            flakeref := ⟨"/cfg/os-flake"⟩, hostname := none,
            specialisation := some "work", no_specialisation := true,
            extra_args := [], bypass_root_check := false } := rfl

/-- Claim C2 (amended): the specialisation name and the no-specialisation flag
are not mutually exclusive: a system-operation command line supplying both
parses successfully, and both values are recorded. -/
theorem os_specialisation_flags_not_exclusive (cfg : Config) (env : Env)
    (inp : OsInput) (s : String)
    (hs : inp.specialisation = some s) (hn : inp.no_specialisation = true) :
    ∃ a, parseOsSubcommand cfg env inp = .ok a ∧
      a.specialisation = some s ∧ a.no_specialisation = true := by
  refine ⟨_, rfl, ?_, ?_⟩ <;> simp [hs, hn]

/-- Claim C2 witness. -/
theorem os_specialisation_flags_not_exclusive_witness :
    ∃ a, parseOsSubcommand cfg0 env0 osInputBoth = .ok a ∧
      a.specialisation = some "work" ∧ a.no_specialisation = true :=
  os_specialisation_flags_not_exclusive cfg0 env0 osInputBoth "work" rfl rfl

/-- Claim C3, counterexample: with `FLAKE` set in the environment and the
target reference omitted, an os rebuild resolves its flakeref to the
Configuration-derived default, not to the environment value — the rebuild
flakeref declares no `env` source — so the claimed env-over-default precedence
for the rebuild target reference is false. -/
theorem os_flakeref_ignores_flake_env :
    osFlakerefOf (parseOsSubcommand cfg0 env1 osInput0) = some "/cfg/os-flake" ∧
    some "/cfg/os-flake" ≠ env1.flake := by
  refine ⟨rfl, by decide⟩

/-- Claim C3 (amended): the precedence explicit flag > environment variable >
default holds for fields that declare an environment source (shown for
`diff_provider` with `NH_DIFF_PROVIDER` and default `"nvd diff"`); the
rebuild-style target reference declares no environment source: an explicit
value wins over the Configuration-derived default and the environment is
ignored entirely. -/
theorem defaulting_precedence_amended (cfg : Config) (env env2 : Env) (inp : OsInput) :
    (∀ d, inp.common.diff_provider = some d →
        (parseCommonRebuild env inp.common).diff_provider = d) ∧
    (∀ e, inp.common.diff_provider = none → env.nh_diff_provider = some e →
        (parseCommonRebuild env inp.common).diff_provider = e) ∧
    (inp.common.diff_provider = none → env.nh_diff_provider = none →
        (parseCommonRebuild env inp.common).diff_provider = "nvd diff") ∧
    (∀ f, inp.flakeref = some f →
        osFlakerefOf (parseOsSubcommand cfg env inp) = some f) ∧
    (inp.flakeref = none →
        osFlakerefOf (parseOsSubcommand cfg env inp) = some cfg.os_flake) ∧
    osFlakerefOf (parseOsSubcommand cfg env inp) =
      osFlakerefOf (parseOsSubcommand cfg env2 inp) := by
  refine ⟨?_, ?_, ?_, ?_, ?_, ?_⟩ <;>
    intros <;>
    simp_all [parseCommonRebuild, parseOsSubcommand, osFlakerefOf, Option.orElse]

/-- Claim C3 witness. -/
theorem defaulting_precedence_amended_witness :
    (parseCommonRebuild env0 emptyCommonRebuildInput).diff_provider = "nvd diff" ∧
    osFlakerefOf (parseOsSubcommand cfg0 env0 osInput0) = some cfg0.os_flake := by
  have h := defaulting_precedence_amended cfg0 env0 env1 osInput0
  exact ⟨h.2.2.1 rfl rfl, h.2.2.2.2.1 rfl⟩

/-- Claim C4: when the target reference is omitted, an os rebuild resolves to
the Configuration's system default and a home rebuild to its user default, and
the two resolved references differ whenever the configuration holds different
system and user default locations. -/
theorem rebuild_default_flakeref_per_family (cfg : Config) (env : Env)
    (oin : OsInput) (hin : HomeInput)
    (h1 : oin.flakeref = none) (h2 : hin.flakeref = none) :
    osFlakerefOf (parseOsSubcommand cfg env oin) = some cfg.os_flake ∧
    homeFlakerefOf (parseHomeRebuild cfg env hin) = some cfg.home_flake ∧
    (cfg.os_flake ≠ cfg.home_flake →
      osFlakerefOf (parseOsSubcommand cfg env oin) ≠
        homeFlakerefOf (parseHomeRebuild cfg env hin)) := by
  refine ⟨?_, ?_, ?_⟩ <;>
    simp_all [parseOsSubcommand, parseHomeRebuild, osFlakerefOf, homeFlakerefOf]

/-- Claim C4 witness. -/
theorem rebuild_default_flakeref_per_family_witness :
    osFlakerefOf (parseOsSubcommand cfg0 env0 osInput0) = some cfg0.os_flake ∧
    homeFlakerefOf (parseHomeRebuild cfg0 env0 homeInput0) = some cfg0.home_flake ∧
    osFlakerefOf (parseOsSubcommand cfg0 env0 osInput0) ≠
      homeFlakerefOf (parseHomeRebuild cfg0 env0 homeInput0) := by
  have h := rebuild_default_flakeref_per_family cfg0 env0 osInput0 homeInput0 rfl rfl
  exact ⟨h.1, h.2.1, h.2.2 (by decide)⟩

/-- Claim C5: a `FlakeRef` built from text `t` reads back as `t` through
`AsRef<str>`, as the same bytes through `AsRef<Path>`, and displays as
exactly `t`. -/
theorem flakeref_round_trip (t : String) :
    (FlakeRef.fromStr t).asRefStr = t ∧
    (FlakeRef.fromStr t).asRefPath = RustPath.mk t ∧
    (FlakeRef.fromStr t).display = t :=
  ⟨rfl, rfl, rfl⟩

/-- Claim C6: an access to the lazily initialized configuration fails exactly
when nothing is cached yet and the home directory cannot be determined; and
once an access has succeeded, every later access returns the very same
configuration and leaves the cell unchanged, whatever the environment then
holds. -/
theorem flake_config_memoized (home h2 : Option String) (s : LazyState) :
    ((lazyAccess home s).isOk = false ↔ (home = none ∧ s.cached = none)) ∧
    (∀ c s2, lazyAccess home s = .ok (c, s2) → lazyAccess h2 s2 = .ok (c, s2)) := by
  obtain ⟨sc⟩ := s
  constructor
  · cases sc <;> cases home <;>
      simp [lazyAccess, Config.from_env, Except.isOk, Except.toBool]
  · intro c s2 hacc
    cases sc with
    | some c0 =>
      simp [lazyAccess] at hacc
      obtain ⟨rfl, rfl⟩ := hacc
      rfl
    | none =>
      cases home with
      | none => simp [lazyAccess, Config.from_env] at hacc
      | some h =>
        simp [lazyAccess, Config.from_env] at hacc
        obtain ⟨rfl, rfl⟩ := hacc
        rfl

/-- Claim C6 witness. -/
theorem flake_config_memoized_witness :
    lazyAccess none { cached := some cfg0 } = .ok (cfg0, { cached := some cfg0 }) :=
  (flake_config_memoized (some "/home/me") none { cached := some cfg0 }).2
    cfg0 { cached := some cfg0 } rfl

/-- Claim C7: every leaf variant of the closed command set is dispatched
through the single `run` contract to its own handler, and the cleanup proxy
adds no behavior of its own: its `run` is exactly the `run` of whichever
nested leaf (all/user/profile) was selected. -/
theorem run_dispatch_uniform (impls : RunImpls) :
    (∀ a, NHCommand.run impls (.os a) = impls.osRun a) ∧
    (∀ a, NHCommand.run impls (.home a) = impls.homeRun a) ∧
    (∀ a, NHCommand.run impls (.search a) = impls.searchRun a) ∧
    (∀ a, NHCommand.run impls (.completions a) = impls.completionsRun a) ∧
    (∀ p, NHCommand.run impls (.clean p) = CleanMode.run impls p.command) ∧
    (∀ a, NHCommand.run impls (.clean ⟨.all a⟩) = impls.cleanAllRun a) ∧
    (∀ a, NHCommand.run impls (.clean ⟨.user a⟩) = impls.cleanUserRun a) ∧
    (∀ a, NHCommand.run impls (.clean ⟨.profile a⟩) = impls.cleanProfileRun a) :=
  ⟨fun _ => rfl, fun _ => rfl, fun _ => rfl, fun _ => rfl,
   fun _ => rfl, fun _ => rfl, fun _ => rfl, fun _ => rfl⟩

/-- Claim C8: `clean profile <path>` with no options resolves to keep = 1,
keep_since = the zero duration, and all four flags false. -/
theorem clean_profile_defaults (p : String) :
    parseCleanProfile emptyCleanInput p =
      .ok { common := { keep := 1, keep_since := 0, dry := false, ask := false,
                        nogc := false, nogcroots := false },
            profile := ⟨p⟩ } := rfl

/-- Claim C9: a search invocation without `--limit` or `--channel` resolves to
a limit of 30 and no channel filter, and omitting the query is a parse
error. -/
theorem search_defaults_and_required_query (env : Env) (inp : SearchInput) :
    (inp.query = none → ∃ e, parseSearch env inp = .error e) ∧
    (∀ q, inp.query = some q → inp.limit = none → inp.channel = none →
      ∃ a, parseSearch env inp = .ok a ∧ a.limit = 30 ∧ a.channel = none ∧
        a.query = q) := by
  constructor
  · intro hq
    unfold parseSearch
    rw [hq]
    cases hpl : parseNatStr (inp.limit.getD "30") with
    | none => exact ⟨_, rfl⟩
    | some l =>
      dsimp only
      split
      · exact ⟨_, rfl⟩
      · exact ⟨_, rfl⟩
  · intro q hq hlim hch
    unfold parseSearch
    rw [hlim, hq]
    have h30 : parseNatStr ((none : Option String).getD "30") = some 30 := rfl
    rw [h30]
    dsimp only
    rw [if_pos (by norm_num : (30 : Nat) < 2 ^ 64)]
    exact ⟨_, rfl, rfl, hch, rfl⟩

/-- Claim C9 witness. -/
theorem search_defaults_and_required_query_witness :
    (∃ e, parseSearch env0
      { limit := none, channel := none, query := none, flake := none } = .error e) ∧
    (∃ a, parseSearch env0 searchInput0 = .ok a ∧ a.limit = 30 ∧
      a.channel = none ∧ a.query = "firefox") :=
  ⟨(search_defaults_and_required_query env0
      { limit := none, channel := none, query := none, flake := none }).1 rfl,
   (search_defaults_and_required_query env0 searchInput0).2 "firefox" rfl rfl rfl⟩

/-- Claim C10: the repl target reference is required and has no
Configuration-derived default: with neither a positional reference nor `FLAKE`
in the environment, resolution fails — also when a configuration-attribute
name was supplied — and a reference supplied positionally or through `FLAKE`
is taken verbatim. -/
theorem repl_flakeref_required (env : Env) (inp : ReplInput) :
    (inp.flakeref = none → env.flake = none → ∃ e, parseRepl env inp = .error e) ∧
    (∀ f, inp.configuration = none → inp.flakeref = some f →
        parseRepl env inp = .ok { flakeref := ⟨f⟩, hostname := inp.hostname,
                                  configuration := none,
                                  extra_args := inp.extra_args }) ∧
    (∀ f, inp.configuration = none → inp.flakeref = none → env.flake = some f →
        parseRepl env inp = .ok { flakeref := ⟨f⟩, hostname := inp.hostname,
                                  configuration := none,
                                  extra_args := inp.extra_args }) := by
  refine ⟨?_, ?_, ?_⟩
  · intro h1 h2
    refine ⟨"the following required arguments were not provided: flakeref", ?_⟩
    simp [parseRepl, h1, h2]
  · intro f hc hf
    simp [parseRepl, hc, hf]
  · intro f hc hf he
    simp [parseRepl, hc, hf, he]

/-- Claim C10 witness. -/
theorem repl_flakeref_required_witness :
    (∃ e, parseRepl env0
      { flakeref := none, hostname := none, configuration := some "me@host",
        extra_args := [] } = .error e) ∧
    parseRepl env0
      { flakeref := some "/my/flake", hostname := none, configuration := none,
        extra_args := [] } =
      .ok { flakeref := ⟨"/my/flake"⟩, hostname := none, configuration := none,
            extra_args := [] } :=
  ⟨(repl_flakeref_required env0
      { flakeref := none, hostname := none, configuration := some "me@host",
        extra_args := [] }).1 rfl rfl,
   (repl_flakeref_required env0
      { flakeref := some "/my/flake", hostname := none, configuration := none,
        extra_args := [] }).2.1 "/my/flake" rfl rfl⟩

end NhDarwin
